import Mathlib

/-!
Verification of the TrueNAS exporter's RPC connection layer and
legend-indexed reporting decoder, as a shallow embedding of the Rust
sources in src/truenas/connection.rs and src/collectors/system_reporting.rs.

Machine floating-point row values are modelled as exact rationals: the
claims under study only move values around, compare them with zero, and
subtract two values that are exactly representable, so the rational model
agrees with the f64 semantics at every input the claims mention.
-/

namespace Truenas

/-- Subset of serde_json::Value relevant to connection.rs: the auth and
query logic only ever inspects whether the result is the boolean true or
false constant; other payloads are forwarded opaquely. -/
inductive JsonValue where
  | null
  | bool (b : Bool)
  | num (q : ℚ)
  | str (s : String)
deriving DecidableEq

/-- JsonRpcError from src/truenas/types.rs: optional code, errname, reason. -/
structure JsonRpcError where
  error : Option Int
  errname : Option String
  reason : Option String
deriving DecidableEq

/-- JsonRpcResponse from src/truenas/types.rs: id, msg, optional result,
optional error envelope. -/
structure JsonRpcResponse where
  id : String
  msg : String
  result : Option JsonValue
  error : Option JsonRpcError
deriving DecidableEq

/-- An inbound WebSocket frame as connection.rs observes it.  serde_json's
parser is external to this repository, so a text frame carries its parse
outcome: textOk when from_str produced a JsonRpcResponse, textBad (with the
error message) when parsing failed, nonText for binary/ping/pong frames. -/
inductive InMsg where
  | textOk (resp : JsonRpcResponse)
  | textBad (e : String)
  | nonText
deriving DecidableEq

/-- Outcome of stream.next().await on the WebSocket: Some(Ok(msg)) is
frame, Some(Err(e)) is ioError, None (end of stream) is closed. -/
inductive ReadEvent where
  | frame (m : InMsg)
  | ioError (e : String)
  | closed
deriving DecidableEq

/-- True exactly when the read event is Some(Err(..)). -/
def ReadEvent.isErr : ReadEvent → Bool
  | .ioError _ => true
  | _ => false

/-- ExporterError from src/error.rs, with wrapped foreign error types
reduced to their message strings. -/
inductive ExporterError where
  | trueNasApi (s : String)
  | webSocket (s : String)
  | json (s : String)
  | config (s : String)
  | auth (s : String)
deriving DecidableEq

/-- ActiveConnection from connection.rs: the physical stream (identified
here by a numeric tag) plus the authenticated flag. -/
structure ActiveConnection where
  connId : Nat
  authenticated : Bool
deriving DecidableEq

/-- pat is a leading segment of the character list. -/
def chStarts : List Char → List Char → Bool
  | [], _ => true
  | _ :: _, [] => false
  | a :: as, b :: bs => a == b && chStarts as bs

/-- pat occurs contiguously somewhere in the character list. -/
def chHas (pat : List Char) : List Char → Bool
  | [] => chStarts pat []
  | c :: cs => chStarts pat (c :: cs) || chHas pat cs

/-- Rust str::contains on substrings, over the underlying character lists. -/
def strContains (s pat : String) : Bool :=
  chHas pat.data s.data

/-- connection.rs lines 237-262: interpretation of a received frame, given
the current content of the shared connection slot (conn_guard).  An error
envelope whose reason contains the ENOTAUTHENTICATED sentinel resets the
slot to empty; any error envelope yields a TrueNasApi error; a present
result is returned as the success payload (the final serde decode into the
caller's type is external and does not touch the slot); a non-text frame or
a response with neither result nor error falls through to the generic
TrueNasApi error with the slot untouched; a text frame that fails parsing
propagates a Json error with the slot untouched. -/
def interpret_response (slot : Option ActiveConnection) (m : InMsg) :
    Option ActiveConnection × Except ExporterError JsonValue :=
  match m with
  | .nonText =>
      (slot, Except.error (ExporterError.trueNasApi "No valid JSON-RPC response received"))
  | .textBad e => (slot, Except.error (ExporterError.json e))
  | .textOk resp =>
      match resp.error with
      | some err =>
          let errorMsg := err.reason.getD "Unknown error"
          if strContains errorMsg "ENOTAUTHENTICATED" then
            (none, Except.error (ExporterError.trueNasApi errorMsg))
          else
            (slot, Except.error (ExporterError.trueNasApi errorMsg))
      | none =>
          match resp.result with
          | some r => (slot, Except.ok r)
          | none =>
              (slot, Except.error (ExporterError.trueNasApi "No valid JSON-RPC response received"))

/-- connection.rs lines 197-263 (ConnectionManager::execute_query after a
successful ensure_connected): the connection conn has been checked out of
the shared slot, which is now empty.  writeErr is the outcome of the
socket write (none on success), readEvent the outcome of the subsequent
read.  Returns the final slot content paired with the call's result.  On a
write error the slot stays empty and the error propagates; on end of
stream the slot stays empty and a connection-closed TrueNasApi error is
returned; on a read error the slot stays empty and the error propagates;
on a received frame the connection is first checked back in (slot := some
conn) and only then is the payload interpreted. -/
def execute_query (conn : ActiveConnection) (writeErr : Option String)
    (readEvent : ReadEvent) :
    Option ActiveConnection × Except ExporterError JsonValue :=
  match writeErr with
  | some e => (none, Except.error (ExporterError.webSocket e))
  | none =>
      match readEvent with
      | .ioError e => (none, Except.error (ExporterError.webSocket e))
      | .closed => (none, Except.error (ExporterError.trueNasApi "Connection closed by server"))
      | .frame m => interpret_response (some conn) m

/-- The wire events consumed by one run of authenticate_connection
(connection.rs lines 114-183): outcome of the DDP connect write, the read
of the connect response (content logged only), the auth request write, and
the read of the auth response. -/
structure AuthExchange where
  ddpWriteErr : Option String
  ddpRead : ReadEvent
  authWriteErr : Option String
  authRead : ReadEvent
deriving DecidableEq

/-- connection.rs lines 114-183 (ConnectionManager::authenticate_connection):
sends the DDP connect frame, reads one frame (an Err read propagates, any
frame or end of stream is accepted without validation), sends the auth
request, and reads the auth response.  An error envelope yields an Auth
error; a boolean true result yields success; a boolean false result yields
an Auth error; every other outcome (no frame, non-text frame, non-boolean
or absent result without error) falls off the end of the function and
yields success. -/
def authenticate_connection (io : AuthExchange) : Except ExporterError Unit :=
  match io.ddpWriteErr with
  | some e => Except.error (ExporterError.webSocket e)
  | none =>
  match io.ddpRead with
  | .ioError e => Except.error (ExporterError.webSocket e)
  | _ =>
  match io.authWriteErr with
  | some e => Except.error (ExporterError.webSocket e)
  | none =>
  match io.authRead with
  | .ioError e => Except.error (ExporterError.webSocket e)
  | .closed => Except.ok ()
  | .frame m =>
      match m with
      | .nonText => Except.ok ()
      | .textBad e => Except.error (ExporterError.json e)
      | .textOk resp =>
          match resp.error with
          | some err =>
              Except.error (ExporterError.auth
                ("Authentication failed: " ++ err.reason.getD "Unknown error"))
          | none =>
              match resp.result with
              | some (JsonValue.bool true) => Except.ok ()
              | some (JsonValue.bool false) =>
                  Except.error (ExporterError.auth
                    "Authentication failed: API key rejected by TrueNAS")
              | _ => Except.ok ()

/-- connection.rs lines 57-85 (ConnectionManager::ensure_connected): if the
slot is empty, open a fresh connection (connectResult; unauthenticated on
success, slot stays empty and the error propagates on failure); if the
held connection is not authenticated, run authenticate_connection; on its
failure the slot is reset to empty and the error propagates, on success
the connection is marked authenticated.  Returns the final slot content
and the call's outcome. -/
def ensure_connected (slot : Option ActiveConnection)
    (connectResult : Except ExporterError Nat) (io : AuthExchange) :
    Option ActiveConnection × Except ExporterError Unit :=
  match slot with
  | none =>
      match connectResult with
      | Except.error e => (none, Except.error e)
      | Except.ok cid =>
          match authenticate_connection io with
          | Except.error e => (none, Except.error e)
          | Except.ok () => (some { connId := cid, authenticated := true }, Except.ok ())
  | some c =>
      if c.authenticated then (some c, Except.ok ())
      else
        match authenticate_connection io with
        | Except.error e => (none, Except.error e)
        | Except.ok () =>
            (some { c with authenticated := true }, Except.ok ())

/-- The modulus of the u64 request counter in connection.rs. -/
def U64 : Nat := 2 ^ 64

/-- connection.rs lines 44-48 (ConnectionManager::next_id): AtomicU64
fetch_add(1) returns the previous counter value as the assigned identifier
(rendered in decimal, an injective map we keep numeric) and stores the
incremented value, wrapping at 2 to the 64 as Rust atomics do. -/
def next_id (s : Nat) : Nat × Nat :=
  (s, (s + 1) % U64)

/-- Counter state before the k-th request of the process; the counter
starts at 0 (AtomicU64::new(0)). -/
def counter_state : Nat → Nat
  | 0 => 0
  | k + 1 => (next_id (counter_state k)).2

/-- The identifier assigned to the k-th request of the process (0-based),
whether an authentication request or a method call: both go through
next_id on the same shared counter. -/
def assigned_id (k : Nat) : Nat :=
  (next_id (counter_state k)).1

/-- ReportingGraph from src/truenas/types.rs, one discovered series
descriptor. -/
structure ReportingGraph where
  name : String
  title : String
  vertical_label : String
  identifiers : Option (List String)
deriving DecidableEq

/-- ReportingQuery from src/truenas/types.rs, one row of the outbound
batch request. -/
structure ReportingQuery where
  name : String
  identifier : Option String
deriving DecidableEq

/-- system_reporting.rs lines 84-115, body of the discovery loop for one
graph: disktemp, disk and interface descriptors with an identifier list
contribute one query per identifier; descriptors with no identifier list
and unrecognized names contribute nothing. -/
def per_graph_queries (g : ReportingGraph) : List ReportingQuery :=
  if g.name == "disktemp" then
    match g.identifiers with
    | some ids => ids.map fun id => { name := "disktemp", identifier := some id }
    | none => []
  else if g.name == "disk" then
    match g.identifiers with
    | some ids => ids.map fun id => { name := "disk", identifier := some id }
    | none => []
  else if g.name == "interface" then
    match g.identifiers with
    | some ids => ids.map fun id => { name := "interface", identifier := some id }
    | none => []
  else []

/-- system_reporting.rs lines 67-115: the batch query list starts with the
three unconditional scalar queries cpu, cputemp and memory, then the loop
appends the per-identifier queries of each discovered graph in order. -/
def build_reporting_queries (graphs : List ReportingGraph) : List ReportingQuery :=
  graphs.foldl (fun acc g => acc ++ per_graph_queries g)
    [{ name := "cpu", identifier := none },
     { name := "cputemp", identifier := none },
     { name := "memory", identifier := none }]

/-- system_reporting.rs line 118: the reporting.get_data batch call is
issued exactly when the built query list is non-empty. -/
def batch_call_issued (graphs : List ReportingGraph) : Bool :=
  !(build_reporting_queries graphs).isEmpty

/-- ReportingData from src/truenas/types.rs: one batch result, a matrix of
optional numeric values whose columns are named by the legend. -/
structure ReportingData where
  name : String
  identifier : Option String
  data : List (List (Option ℚ))
  legend : List String
deriving DecidableEq

/-- One gauge update issued through the metrics collector: metric name,
label values, value set. -/
inductive MetricEvent where
  | gauge (metric : String) (labels : List String) (value : ℚ)
deriving DecidableEq

/-- system_reporting.rs lines 171-198, the disktemp arm: on the last row,
find the first legend column labeled temperature_value or value and emit
its value when present; with no such column and more than one legend
column, emit the last entry of the last row when present; the single label
value is the device identifier carried on the sample (or unknown). -/
def decode_disktemp (res : ReportingData) : List MetricEvent :=
  match res.data.getLast? with
  | none => []
  | some lastPoint =>
      let device := res.identifier.getD "unknown"
      match res.legend.findIdx? (fun l => l == "temperature_value" || l == "value") with
      | some idx =>
          match lastPoint[idx]? with
          | some (some val) => [MetricEvent.gauge "disk_temperature_celsius" [device] val]
          | _ => []
      | none =>
          if res.legend.length > 1 then
            match lastPoint.getLast? with
            | some (some val) => [MetricEvent.gauge "disk_temperature_celsius" [device] val]
            | _ => []
          else []

/-- system_reporting.rs lines 199-225, the disk arm: on the last row, look
up the legend columns labeled reads and writes independently and emit each
present value as its own metric labeled by the device identifier. -/
def decode_disk (res : ReportingData) : List MetricEvent :=
  match res.data.getLast? with
  | none => []
  | some lastPoint =>
      let device := res.identifier.getD "unknown"
      let readsPart :=
        match res.legend.findIdx? (fun l => l == "reads") with
        | some idx =>
            match lastPoint[idx]? with
            | some (some val) => [MetricEvent.gauge "disk_read_bytes_per_second" [device] val]
            | _ => []
        | none => []
      let writesPart :=
        match res.legend.findIdx? (fun l => l == "writes") with
        | some idx =>
            match lastPoint[idx]? with
            | some (some val) => [MetricEvent.gauge "disk_write_bytes_per_second" [device] val]
            | _ => []
        | none => []
      readsPart ++ writesPart

/-- system_reporting.rs lines 147-161, the per-column loop of the memory
arm: every legend column with a present value in the last row is emitted
as a system_memory_bytes gauge labeled by the column name, and the running
available_bytes accumulator (initially 0) is overwritten with the value of
each present column labeled available. -/
def mem_scan (lastPoint : List (Option ℚ)) (legend : List String) :
    List MetricEvent × ℚ :=
  legend.enum.foldl
    (fun acc p =>
      match lastPoint[p.1]? with
      | some (some val) =>
          (acc.1 ++ [MetricEvent.gauge "system_memory_bytes" [p.2] val],
           if p.2 == "available" then val else acc.2)
      | _ => acc)
    ([], 0)

/-- system_reporting.rs lines 146-170, the memory arm: run the per-column
scan on the last row, then, only when both the previously stored total
physical memory gauge and the captured available value are strictly
positive, additionally set the scalar system_memory_used_bytes gauge to
total minus available. -/
def decode_memory (total : ℚ) (res : ReportingData) : List MetricEvent :=
  match res.data.getLast? with
  | none => []
  | some lastPoint =>
      let scan := mem_scan lastPoint res.legend
      if 0 < total ∧ 0 < scan.2 then
        scan.1 ++ [MetricEvent.gauge "system_memory_used_bytes" [] (total - scan.2)]
      else scan.1

/-- Claim C1: in execute_query, a failed socket write leaves the shared
slot empty (the connection is discarded, never checked back in) and the
write error propagates; an end-of-stream read leaves the slot empty and
returns the connection-closed error; a received frame is checked back in
before the payload is interpreted — the interpretation phase starts from a
slot holding the connection — for every payload, success or error alike. -/
theorem C1_execute_query_slot_discipline (conn : ActiveConnection) :
    (∀ e r, execute_query conn (some e) r
        = (none, Except.error (ExporterError.webSocket e))) ∧
    execute_query conn none ReadEvent.closed
      = (none, Except.error (ExporterError.trueNasApi "Connection closed by server")) ∧
    (∀ m, execute_query conn none (ReadEvent.frame m) = interpret_response (some conn) m) :=
  ⟨fun _ _ => rfl, rfl, fun _ => rfl⟩

/-- Concrete instances of claim C1: a failed write and a closed stream
leave the slot empty with the corresponding errors, and a frame is
interpreted from a slot holding the connection. -/
theorem C1_witness :
    execute_query (⟨2, true⟩ : ActiveConnection) (some "broken pipe") ReadEvent.closed
      = (none, Except.error (ExporterError.webSocket "broken pipe")) ∧
    execute_query (⟨2, true⟩ : ActiveConnection) none ReadEvent.closed
      = (none, Except.error (ExporterError.trueNasApi "Connection closed by server")) ∧
    execute_query (⟨2, true⟩ : ActiveConnection) none (ReadEvent.frame InMsg.nonText)
      = interpret_response (some ⟨2, true⟩) InMsg.nonText :=
  ⟨(C1_execute_query_slot_discipline ⟨2, true⟩).1 "broken pipe" ReadEvent.closed,
   (C1_execute_query_slot_discipline ⟨2, true⟩).2.1,
   (C1_execute_query_slot_discipline ⟨2, true⟩).2.2 InMsg.nonText⟩

/-- Claim C2: a decoded error envelope whose reason contains the
ENOTAUTHENTICATED sentinel resets the shared slot to empty while the call
still returns the TrueNasApi error; without the sentinel the connection
stays checked in, unchanged, and the call returns the same kind of
error. -/
theorem C2_session_expiry_invalidation (conn : ActiveConnection)
    (resp : JsonRpcResponse) (err : JsonRpcError) (he : resp.error = some err) :
    (strContains (err.reason.getD "Unknown error") "ENOTAUTHENTICATED" = true →
      execute_query conn none (ReadEvent.frame (InMsg.textOk resp))
        = (none, Except.error (ExporterError.trueNasApi (err.reason.getD "Unknown error")))) ∧
    (strContains (err.reason.getD "Unknown error") "ENOTAUTHENTICATED" = false →
      execute_query conn none (ReadEvent.frame (InMsg.textOk resp))
        = (some conn, Except.error (ExporterError.trueNasApi (err.reason.getD "Unknown error")))) := by
  constructor <;> intro h <;> simp [execute_query, interpret_response, he, h]

/-- Concrete instances of claim C2: a reason containing the sentinel
empties the slot, a plain failure reason leaves the connection checked
in; both calls return the TrueNasApi error. -/
theorem C2_witness :
    execute_query (⟨3, true⟩ : ActiveConnection) none (ReadEvent.frame (InMsg.textOk
        ⟨"7", "result", none, some ⟨some 13, none, some "x ENOTAUTHENTICATED y"⟩⟩))
      = (none, Except.error (ExporterError.trueNasApi "x ENOTAUTHENTICATED y")) ∧
    execute_query (⟨3, true⟩ : ActiveConnection) none (ReadEvent.frame (InMsg.textOk
        ⟨"7", "result", none, some ⟨some 13, none, some "plain failure"⟩⟩))
      = (some ⟨3, true⟩, Except.error (ExporterError.trueNasApi "plain failure")) :=
  ⟨(C2_session_expiry_invalidation ⟨3, true⟩
      ⟨"7", "result", none, some ⟨some 13, none, some "x ENOTAUTHENTICATED y"⟩⟩
      ⟨some 13, none, some "x ENOTAUTHENTICATED y"⟩ rfl).1 rfl,
   (C2_session_expiry_invalidation ⟨3, true⟩
      ⟨"7", "result", none, some ⟨some 13, none, some "plain failure"⟩⟩
      ⟨some 13, none, some "plain failure"⟩ rfl).2 rfl⟩

/-- Claim C3: during authentication, a boolean true result yields success,
a boolean false result or an error envelope yields an Auth error; on any
authentication failure ensure_connected resets the shared slot to empty,
so the discarded connection is never reused; and a subsequent call that
starts from the empty slot opens a fresh connection and runs the full
handshake-plus-authentication exchange, ending authenticated on success. -/
theorem C3_auth_result_and_discard :
    (∀ dr resp, dr.isErr = false →
      (resp.error = none → resp.result = some (JsonValue.bool true) →
        authenticate_connection ⟨none, dr, none, ReadEvent.frame (InMsg.textOk resp)⟩
          = Except.ok ()) ∧
      (resp.error = none → resp.result = some (JsonValue.bool false) →
        authenticate_connection ⟨none, dr, none, ReadEvent.frame (InMsg.textOk resp)⟩
          = Except.error (ExporterError.auth
              "Authentication failed: API key rejected by TrueNAS")) ∧
      (∀ err, resp.error = some err →
        authenticate_connection ⟨none, dr, none, ReadEvent.frame (InMsg.textOk resp)⟩
          = Except.error (ExporterError.auth
              ("Authentication failed: " ++ err.reason.getD "Unknown error")))) ∧
    (∀ cid connectRes io e, authenticate_connection io = Except.error e →
      ensure_connected (some { connId := cid, authenticated := false }) connectRes io
        = (none, Except.error e)) ∧
    (∀ cid io, authenticate_connection io = Except.ok () →
      ensure_connected none (Except.ok cid) io
        = (some { connId := cid, authenticated := true }, Except.ok ())) := by
  refine ⟨?_, ?_, ?_⟩
  · intro dr resp h2
    refine ⟨?_, ?_, ?_⟩
    · intro he hr
      cases dr with
      | ioError e => simp [ReadEvent.isErr] at h2
      | frame m => simp [authenticate_connection, he, hr]
      | closed => simp [authenticate_connection, he, hr]
    · intro he hr
      cases dr with
      | ioError e => simp [ReadEvent.isErr] at h2
      | frame m => simp [authenticate_connection, he, hr]
      | closed => simp [authenticate_connection, he, hr]
    · intro err he
      cases dr with
      | ioError e => simp [ReadEvent.isErr] at h2
      | frame m => simp [authenticate_connection, he]
      | closed => simp [authenticate_connection, he]
  · intro cid connectRes io e hauth
    simp [ensure_connected, hauth]
  · intro cid io hauth
    simp [ensure_connected, hauth]

/-- Concrete instances of claim C3: a true result authenticates, a false
result is an Auth error, the failed connection is discarded (slot reset to
empty), and a fresh call from the empty slot connects and authenticates. -/
theorem C3_witness :
    authenticate_connection ⟨none, ReadEvent.closed, none, ReadEvent.frame (InMsg.textOk
        ⟨"0", "result", some (JsonValue.bool true), none⟩)⟩ = Except.ok () ∧
    authenticate_connection ⟨none, ReadEvent.closed, none, ReadEvent.frame (InMsg.textOk
        ⟨"0", "result", some (JsonValue.bool false), none⟩)⟩
      = Except.error (ExporterError.auth
          "Authentication failed: API key rejected by TrueNAS") ∧
    ensure_connected (some { connId := 5, authenticated := false }) (Except.ok 9)
        ⟨none, ReadEvent.closed, none, ReadEvent.frame (InMsg.textOk
          ⟨"0", "result", some (JsonValue.bool false), none⟩)⟩
      = (none, Except.error (ExporterError.auth
          "Authentication failed: API key rejected by TrueNAS")) ∧
    ensure_connected none (Except.ok 6)
        ⟨none, ReadEvent.closed, none, ReadEvent.frame (InMsg.textOk
          ⟨"0", "result", some (JsonValue.bool true), none⟩)⟩
      = (some { connId := 6, authenticated := true }, Except.ok ()) :=
  ⟨((C3_auth_result_and_discard.1 ReadEvent.closed _ rfl).1 rfl rfl),
   ((C3_auth_result_and_discard.1 ReadEvent.closed _ rfl).2.1 rfl rfl),
   (C3_auth_result_and_discard.2.1 5 (Except.ok 9) _ _
     ((C3_auth_result_and_discard.1 ReadEvent.closed _ rfl).2.1 rfl rfl)),
   (C3_auth_result_and_discard.2.2 6 _
     ((C3_auth_result_and_discard.1 ReadEvent.closed _ rfl).1 rfl rfl))⟩

/-- Helper for claim C4: the discovery loop only ever appends to the query
list, so the result is never shorter than the seed it starts from. -/
theorem build_queries_length_mono (graphs : List ReportingGraph)
    (init : List ReportingQuery) :
    init.length ≤ (graphs.foldl (fun acc g => acc ++ per_graph_queries g) init).length := by
  induction graphs generalizing init with
  | nil => simp
  | cons g gs ih =>
      calc init.length ≤ (init ++ per_graph_queries g).length := by simp
        _ ≤ _ := ih _

/-- Counterexample to claim C4 as stated: with an empty discovery list the
builder does not produce an empty batch spec list — it produces the three
unconditional scalar specs — and the batch data call is issued, not
skipped. -/
theorem C4_counterexample :
    build_reporting_queries []
      = [{ name := "cpu", identifier := none }, { name := "cputemp", identifier := none },
         { name := "memory", identifier := none }] ∧
    batch_call_issued [] = true :=
  ⟨rfl, rfl⟩

/-- Claim C4 as amended: for every discovery result, the built batch spec
list contains at least the three fixed scalar specs, so it is never empty
and the emptiness guard never suppresses the reporting.get_data call: the
batch call is always issued. -/
theorem C4_batch_never_skipped (graphs : List ReportingGraph) :
    3 ≤ (build_reporting_queries graphs).length ∧ batch_call_issued graphs = true := by
  have h3 : 3 ≤ (build_reporting_queries graphs).length := by
    unfold build_reporting_queries
    have h := build_queries_length_mono graphs
      [{ name := "cpu", identifier := none }, { name := "cputemp", identifier := none },
       { name := "memory", identifier := none }]
    simpa using h
  refine ⟨h3, ?_⟩
  cases hq : build_reporting_queries graphs with
  | nil => rw [hq] at h3; exact absurd h3 (by decide)
  | cons a l => simp [batch_call_issued, hq]

/-- Concrete instance of amended claim C4: even a discovery list holding a
single unrecognized descriptor yields at least the three fixed scalar
specs and the batch call is issued. -/
theorem C4_witness :
    3 ≤ (build_reporting_queries
          [{ name := "zfsarc", title := "ZFS ARC", vertical_label := "bytes",
             identifiers := none }]).length ∧
    batch_call_issued
      [{ name := "zfsarc", title := "ZFS ARC", vertical_label := "bytes",
         identifiers := none }] = true :=
  C4_batch_never_skipped
    [{ name := "zfsarc", title := "ZFS ARC", vertical_label := "bytes",
       identifiers := none }]

/-- Counterexample to claim C5 as stated: on a binary (non-text) frame the
connection stays checked in to the shared slot — it is not invalidated —
and the error returned is the generic TrueNasApi variant, the same
constructor used for remote-reported API errors, not a distinct protocol
error. -/
theorem C5_counterexample :
    execute_query (⟨0, true⟩ : ActiveConnection) none (ReadEvent.frame InMsg.nonText)
      = (some (⟨0, true⟩ : ActiveConnection),
         Except.error (ExporterError.trueNasApi "No valid JSON-RPC response received")) :=
  rfl

/-- Claim C5 as amended: a non-text frame, or a text response carrying
neither a result nor an error field, is rejected with the generic
TrueNasApi error (No valid JSON-RPC response received) — the same error
constructor used for remote-reported errors — and the connection remains
checked in to the shared slot, so the next call reuses it. -/
theorem C5_protocol_fallthrough (conn : ActiveConnection) :
    execute_query conn none (ReadEvent.frame InMsg.nonText)
      = (some conn,
         Except.error (ExporterError.trueNasApi "No valid JSON-RPC response received")) ∧
    (∀ resp, resp.error = none → resp.result = none →
      execute_query conn none (ReadEvent.frame (InMsg.textOk resp))
        = (some conn,
           Except.error (ExporterError.trueNasApi "No valid JSON-RPC response received"))) := by
  refine ⟨rfl, ?_⟩
  intro resp he hr
  simp [execute_query, interpret_response, he, hr]

/-- Concrete instance of amended claim C5: a response with neither result
nor error leaves the connection checked in and yields the generic
TrueNasApi error. -/
theorem C5_witness :
    execute_query (⟨1, true⟩ : ActiveConnection) none (ReadEvent.frame (InMsg.textOk
        ⟨"7", "result", none, none⟩))
      = (some (⟨1, true⟩ : ActiveConnection),
         Except.error (ExporterError.trueNasApi "No valid JSON-RPC response received")) :=
  (C5_protocol_fallthrough ⟨1, true⟩).2 ⟨"7", "result", none, none⟩ rfl rfl

/-- Claim C6: authenticate_connection returns success when the auth read
yields no frame at all, a non-text frame, or a text response with no error
envelope whose result is not a boolean (including an absent result), and
ensure_connected then marks the connection authenticated — success is not
contingent on receiving a boolean true result. -/
theorem C6_auth_vacuous_success (dr : ReadEvent) (h2 : dr.isErr = false) :
    authenticate_connection ⟨none, dr, none, ReadEvent.closed⟩ = Except.ok () ∧
    authenticate_connection ⟨none, dr, none, ReadEvent.frame InMsg.nonText⟩ = Except.ok () ∧
    (∀ resp, resp.error = none → (∀ b, resp.result ≠ some (JsonValue.bool b)) →
      authenticate_connection ⟨none, dr, none, ReadEvent.frame (InMsg.textOk resp)⟩
        = Except.ok ()) ∧
    (∀ cid connectRes io, authenticate_connection io = Except.ok () →
      ensure_connected (some { connId := cid, authenticated := false }) connectRes io
        = (some { connId := cid, authenticated := true }, Except.ok ())) := by
  refine ⟨?_, ?_, ?_, ?_⟩
  · cases dr with
    | ioError e => simp [ReadEvent.isErr] at h2
    | frame m => rfl
    | closed => rfl
  · cases dr with
    | ioError e => simp [ReadEvent.isErr] at h2
    | frame m => rfl
    | closed => rfl
  · intro resp he hb
    cases dr with
    | ioError e => simp [ReadEvent.isErr] at h2
    | frame m =>
        cases hres : resp.result with
        | none => simp [authenticate_connection, he, hres]
        | some v =>
            cases v with
            | bool b => exact absurd hres (hb b)
            | null => simp [authenticate_connection, he, hres]
            | num q => simp [authenticate_connection, he, hres]
            | str t => simp [authenticate_connection, he, hres]
    | closed =>
        cases hres : resp.result with
        | none => simp [authenticate_connection, he, hres]
        | some v =>
            cases v with
            | bool b => exact absurd hres (hb b)
            | null => simp [authenticate_connection, he, hres]
            | num q => simp [authenticate_connection, he, hres]
            | str t => simp [authenticate_connection, he, hres]
  · intro cid connectRes io hauth
    simp [ensure_connected, hauth]

/-- Concrete instances of claim C6: authentication succeeds with no
response frame, with a non-text frame, and with a non-boolean result, and
the connection is then marked authenticated. -/
theorem C6_witness :
    authenticate_connection ⟨none, ReadEvent.closed, none, ReadEvent.closed⟩ = Except.ok () ∧
    authenticate_connection ⟨none, ReadEvent.closed, none, ReadEvent.frame InMsg.nonText⟩
      = Except.ok () ∧
    authenticate_connection ⟨none, ReadEvent.closed, none, ReadEvent.frame (InMsg.textOk
        ⟨"0", "result", some (JsonValue.str "odd"), none⟩)⟩ = Except.ok () ∧
    ensure_connected (some { connId := 4, authenticated := false }) (Except.ok 8)
        ⟨none, ReadEvent.closed, none, ReadEvent.closed⟩
      = (some { connId := 4, authenticated := true }, Except.ok ()) :=
  ⟨(C6_auth_vacuous_success ReadEvent.closed rfl).1,
   (C6_auth_vacuous_success ReadEvent.closed rfl).2.1,
   (C6_auth_vacuous_success ReadEvent.closed rfl).2.2.1
     ⟨"0", "result", some (JsonValue.str "odd"), none⟩ rfl
     (fun b h => by cases h),
   (C6_auth_vacuous_success ReadEvent.closed rfl).2.2.2 4 (Except.ok 8)
     ⟨none, ReadEvent.closed, none, ReadEvent.closed⟩
     (C6_auth_vacuous_success ReadEvent.closed rfl).1⟩

/-- Helper for claim C7: the wrapping counter seeded at 0 holds k modulo
2 to the 64 before the k-th request. -/
theorem counter_state_eq (k : Nat) : counter_state k = k % U64 := by
  induction k with
  | zero => rfl
  | succ k ih =>
      simp only [counter_state, next_id, ih]
      conv_rhs => rw [Nat.add_mod]
      rw [Nat.mod_eq_of_lt (show 1 < U64 by norm_num [U64])]

/-- Claim C7: within one process lifetime, the identifiers handed out by
the shared request counter — used for the authentication request and every
method call alike — are strictly increasing and never repeat; as the
claim's source notes, this is under the u64 counter's own range (no
wraparound handling), so the sequence position stays below 2 to the 64. -/
theorem C7_ids_strictly_increasing (i j : Nat) (hij : i < j) (hj : j < U64) :
    assigned_id i < assigned_id j ∧ assigned_id i ≠ assigned_id j := by
  have hi : i < U64 := lt_trans hij hj
  have e1 : assigned_id i = i := by
    simp [assigned_id, next_id, counter_state_eq, Nat.mod_eq_of_lt hi]
  have e2 : assigned_id j = j := by
    simp [assigned_id, next_id, counter_state_eq, Nat.mod_eq_of_lt hj]
  rw [e1, e2]
  exact ⟨hij, Nat.ne_of_lt hij⟩

/-- Concrete instance of claim C7: the identifier of the third request is
below and distinct from that of the sixth. -/
theorem C7_witness : assigned_id 2 < assigned_id 5 ∧ assigned_id 2 ≠ assigned_id 5 :=
  C7_ids_strictly_increasing 2 5 (by norm_num) (by norm_num [U64])

/-- Counterexample to claim C8 as stated: with legend time, value,
temperature_value and last row 1, 10, 42, the decoder emits 10 — the first
column labeled value or temperature_value in a single left-to-right scan —
not 42, which the claimed temperature_value-over-value priority would
select. -/
theorem C8_counterexample :
    decode_disktemp
      { name := "disktemp", identifier := some "sdb",
        data := [[some 1, some 10, some 42]],
        legend := ["time", "value", "temperature_value"] }
      = [MetricEvent.gauge "disk_temperature_celsius" ["sdb"] 10] := by
  decide

/-- Claim C8 as amended: for every per-device temperature sample with at
least one row, the decoder selects the first column whose label is
temperature_value or value (one scan, no priority between the two labels),
else — when neither label exists and the legend has more than one column —
the last column of the last row, and emits the selected value when
present, labeled by the device identifier carried on the sample; with a
single-column legend and no recognized label, nothing is emitted. -/
theorem C8_disktemp_decoding (res : ReportingData) (lp : List (Option ℚ))
    (hlp : res.data.getLast? = some lp) :
    (∀ idx v,
      res.legend.findIdx? (fun l => l == "temperature_value" || l == "value") = some idx →
      lp[idx]? = some (some v) →
      decode_disktemp res
        = [MetricEvent.gauge "disk_temperature_celsius" [res.identifier.getD "unknown"] v]) ∧
    (∀ v,
      res.legend.findIdx? (fun l => l == "temperature_value" || l == "value") = none →
      1 < res.legend.length → lp.getLast? = some (some v) →
      decode_disktemp res
        = [MetricEvent.gauge "disk_temperature_celsius" [res.identifier.getD "unknown"] v]) ∧
    (res.legend.findIdx? (fun l => l == "temperature_value" || l == "value") = none →
      res.legend.length ≤ 1 → decode_disktemp res = []) := by
  refine ⟨?_, ?_, ?_⟩
  · intro idx v hfind hget
    simp [decode_disktemp, hlp, hfind, hget]
  · intro v hfind hlen hlast
    simp [decode_disktemp, hlp, hfind, hlen, hlast]
  · intro hfind hle
    have hnot : ¬ (res.legend.length > 1) := by omega
    simp [decode_disktemp, hlp, hfind, hnot]

/-- Concrete instance of amended claim C8: legend time, temperature_value
with last row 0, 42 and identifier sdb emits 42 labeled by the device. -/
theorem C8_witness :
    decode_disktemp
      { name := "disktemp", identifier := some "sdb",
        data := [[some 0, some 42]], legend := ["time", "temperature_value"] }
      = [MetricEvent.gauge "disk_temperature_celsius" ["sdb"] 42] :=
  (C8_disktemp_decoding
    { name := "disktemp", identifier := some "sdb",
      data := [[some 0, some 42]], legend := ["time", "temperature_value"] }
    [some 0, some 42] rfl).1 1 42 rfl rfl

/-- Claim C9: for every per-device io sample with at least one row, the
decoder locates the reads and writes columns independently and emits each
present column's last-row value as its own metric labeled by the device
identifier, so a sample with only one of the two columns still emits that
one; in particular legend time, reads, writes with last row 0, 100, 200
and identifier sda yields reads 100 and writes 200 labeled sda. -/
theorem C9_disk_io_decoding (res : ReportingData) (lp : List (Option ℚ))
    (hlp : res.data.getLast? = some lp) :
    (∀ i v, res.legend.findIdx? (fun l => l == "reads") = some i →
      lp[i]? = some (some v) →
      MetricEvent.gauge "disk_read_bytes_per_second" [res.identifier.getD "unknown"] v
        ∈ decode_disk res) ∧
    (∀ i v, res.legend.findIdx? (fun l => l == "writes") = some i →
      lp[i]? = some (some v) →
      MetricEvent.gauge "disk_write_bytes_per_second" [res.identifier.getD "unknown"] v
        ∈ decode_disk res) ∧
    decode_disk
      { name := "disk", identifier := some "sda",
        data := [[some 0, some 100, some 200]], legend := ["time", "reads", "writes"] }
      = [MetricEvent.gauge "disk_read_bytes_per_second" ["sda"] 100,
         MetricEvent.gauge "disk_write_bytes_per_second" ["sda"] 200] := by
  refine ⟨?_, ?_, by decide⟩
  · intro i v hf hg
    simp [decode_disk, hlp, hf, hg]
  · intro i v hf hg
    simp [decode_disk, hlp, hf, hg]

/-- Concrete instance of claim C9: a sample whose legend has a reads
column but no writes column still emits the reads metric. -/
theorem C9_witness :
    MetricEvent.gauge "disk_read_bytes_per_second" ["sdc"] 7
      ∈ decode_disk
          { name := "disk", identifier := some "sdc",
            data := [[some 0, some 7]], legend := ["time", "reads"] } :=
  (C9_disk_io_decoding
    { name := "disk", identifier := some "sdc",
      data := [[some 0, some 7]], legend := ["time", "reads"] }
    [some 0, some 7] rfl).1 1 7 rfl rfl

/-- Counterexample to claim C10 as stated: with the total gauge previously
populated to 16000000000 and a sample whose last row carries the present
value 0 in the available column, the decoder emits only the per-column
gauge and no derived used metric, although the claim requires one. -/
theorem C10_counterexample :
    decode_memory 16000000000
      { name := "memory", identifier := none,
        data := [[some 0]], legend := ["available"] }
      = [MetricEvent.gauge "system_memory_bytes" ["available"] 0] := by
  decide

/-- Claim C10 as amended: the derived used metric equal to total minus the
captured available value is emitted exactly when both the previously
stored total and the captured available value are strictly positive; when
either is zero — an available column holding 0, or a never-populated total
gauge — no derived metric is emitted. -/
theorem C10_memory_used_derivation (total : ℚ) (res : ReportingData)
    (lp : List (Option ℚ)) (hlp : res.data.getLast? = some lp) :
    (0 < total → 0 < (mem_scan lp res.legend).2 →
      decode_memory total res
        = (mem_scan lp res.legend).1
          ++ [MetricEvent.gauge "system_memory_used_bytes" []
                (total - (mem_scan lp res.legend).2)]) ∧
    (¬ (0 < total ∧ 0 < (mem_scan lp res.legend).2) →
      decode_memory total res = (mem_scan lp res.legend).1) := by
  constructor
  · intro ht ha
    simp [decode_memory, hlp, ht, ha]
  · intro hn
    simp [decode_memory, hlp, hn]

/-- Concrete instance of amended claim C10, the figures of the claim: with
total 16000000000 and a sample carrying available 6000000000, the derived
used metric equals 10000000000. -/
theorem C10_witness :
    decode_memory 16000000000
      { name := "memory", identifier := none,
        data := [[none, some 6000000000]], legend := ["time", "available"] }
      = [MetricEvent.gauge "system_memory_bytes" ["available"] 6000000000,
         MetricEvent.gauge "system_memory_used_bytes" [] 10000000000] := by
  have h := (C10_memory_used_derivation 16000000000
      { name := "memory", identifier := none,
        data := [[none, some 6000000000]], legend := ["time", "available"] }
      [none, some 6000000000] rfl).1 (by norm_num) (by decide)
  rw [h]
  norm_num [mem_scan, List.enum, List.enumFrom]

end Truenas
